import Mathlib

/-!
Verification of the chat subsystem of the `binary-dot` repository.

The model is a shallow embedding of `ChatService` (chat.service.ts) and
`ChatGateway` (chat.gateway.ts).  The Prisma-backed database is modelled as
lists of records in insertion order (Prisma `findFirst` without `orderBy`
returns the first match in that order; `create` appends).  String ids from
the source become `String` for users/events and `Nat` for chats/messages;
timestamps become `Nat`.  Each service operation returns
`Except String α × DB`: the final database is returned even on failure, so
that atomicity and frame properties are statements, not modelling choices.
-/

namespace BinaryDot

/-- A row of the `events` table (only fields read by the chat code). -/
structure EventRec where
  id : String
  creatorId : String
deriving Repr, DecidableEq

/-- `ParticipantStatus` enum of the `event_participants` table. -/
inductive PStatus where
  | joined
  | waitlisted
  | cancelled
deriving Repr, DecidableEq

/-- A row of the `event_participants` table. -/
structure EventParticipantRec where
  eventId : String
  userId : String
  status : PStatus
deriving Repr, DecidableEq

/-- A row of the `users` table (fields selected by the chat code). -/
structure UserRec where
  id : String
  name : String
deriving Repr, DecidableEq

/-- A row of the `chats` table. -/
structure Chat where
  id : Nat
  eventId : String
  updatedAt : Nat
deriving Repr, DecidableEq

/-- A row of the `chat_participants` table. -/
structure ChatParticipant where
  chatId : Nat
  userId : String
  isActive : Bool
  joinedAt : Nat
deriving Repr, DecidableEq

/-- A row of the `chat_messages` table. -/
structure ChatMessage where
  id : Nat
  chatId : Nat
  senderId : String
  receiverId : String
  content : String
  image : Option String
  isRead : Bool
  createdAt : Nat
deriving Repr, DecidableEq

/-- The database state seen by the chat service. -/
structure DB where
  events : List EventRec
  eventParticipants : List EventParticipantRec
  users : List UserRec
  chats : List Chat
  chatParticipants : List ChatParticipant
  messages : List ChatMessage
deriving Repr, DecidableEq

/-- `prisma.event.findUnique({ where: { id } })`. -/
def findEvent (db : DB) (eventId : String) : Option EventRec :=
  db.events.find? (fun e => e.id == eventId)

/-- The participant rows of one chat
(`include: { participants: ... }` on a chat). -/
def chatParts (db : DB) (chatId : Nat) : List ChatParticipant :=
  db.chatParticipants.filter (fun p => p.chatId == chatId)

/-- `prisma.chatParticipant.findFirst({ where: { chatId, userId, isActive: true } })`
viewed as a Boolean test, used by `getChatMessages` and `sendMessage`. -/
def isActiveParticipant (db : DB) (chatId : Nat) (userId : String) : Bool :=
  db.chatParticipants.any (fun p =>
    p.chatId == chatId && p.userId == userId && p.isActive)

/-- Stable insertion step for sorting by a `Nat` key, largest first. -/
def insertByKeyDesc (key : α → Nat) (a : α) : List α → List α
  | [] => [a]
  | x :: xs =>
    if key a > key x then a :: x :: xs else x :: insertByKeyDesc key a xs

/-- Sort by a `Nat` key, largest first (Prisma `orderBy: ... 'desc'`). -/
def sortByKeyDesc (key : α → Nat) (l : List α) : List α :=
  l.foldr (insertByKeyDesc key) []

/-! ## `getOrCreateChat` (ChatService)

The source performs, in order: `event.findUnique`; an authorization check
(`isHost` is true when the event's creator is either argument,
`isParticipant` when an `eventParticipant` row exists for either argument,
with no status filter); `chat.findFirst` with
`participants: { every: { userId: { in: [participantId, hostId] } } }`;
a separate `participants.length === 2` test on the result; and otherwise
`chat.create` with two nested participant rows.  Each of those `await`s is
a separate database round trip; we split the function into its read phase
and its write phase at that boundary so that interleavings of concurrent
calls are expressible, and define `getOrCreateChat` as their sequential
composition. -/

/-- Outcome of the read phase of `getOrCreateChat`. -/
inductive FindOutcome where
  | failed (msg : String)
  | found (chatId : Nat)
  | notFound
deriving Repr, DecidableEq

/-- Read phase of `getOrCreateChat`: lines 93–144 of chat.service.ts
(event lookup, authorization check, `chat.findFirst` plus the
`participants.length === 2` test). -/
def getOrCreateChatFind (db : DB) (eventId participantId hostId : String) :
    FindOutcome :=
  match findEvent db eventId with
  | none => .failed "Event not found"
  | some event =>
    let isHost := event.creatorId == participantId || event.creatorId == hostId
    let isParticipant := db.eventParticipants.any (fun ep =>
      ep.eventId == eventId && (ep.userId == participantId || ep.userId == hostId))
    if !isHost && !isParticipant then
      .failed "User not authorized for this event"
    else
      match db.chats.find? (fun c =>
        c.eventId == eventId && (chatParts db c.id).all (fun p =>
          p.userId == participantId || p.userId == hostId)) with
      | some c =>
        if (chatParts db c.id).length == 2 then .found c.id else .notFound
      | none => .notFound

/-- Write phase of `getOrCreateChat`: `chat.create` with two nested
`participants` rows (lines 147–182 of chat.service.ts).  `newChatId` is the
id generated by the store, `now` the row-creation timestamp. -/
def getOrCreateChatCreate (db : DB) (participantId hostId : String)
    (eventId : String) (newChatId now : Nat) : Nat × DB :=
  (newChatId,
   { db with
      chats := db.chats ++ [{ id := newChatId, eventId := eventId, updatedAt := now }],
      chatParticipants := db.chatParticipants ++
        [{ chatId := newChatId, userId := participantId, isActive := true, joinedAt := now },
         { chatId := newChatId, userId := hostId, isActive := true, joinedAt := now }] })

/-- `ChatService.getOrCreateChat(eventId, participantId, hostId)`:
sequential composition of the read and write phases. -/
def getOrCreateChat (db : DB) (eventId participantId hostId : String)
    (newChatId now : Nat) : Except String Nat × DB :=
  match getOrCreateChatFind db eventId participantId hostId with
  | .failed m => (.error m, db)
  | .found cid => (.ok cid, db)
  | .notFound =>
    let (cid, db') := getOrCreateChatCreate db participantId hostId eventId newChatId now
    (.ok cid, db')

/-! ## `getChatMessages` (ChatService) -/

/-- Result shape of `getChatMessages`. -/
structure HistoryResult where
  messages : List ChatMessage
  hasMore : Bool
  page : Nat
deriving Repr, DecidableEq

/-- `ChatService.getChatMessages(chatId, userId, page, limit)`
(lines 187–245 of chat.service.ts): participant check; fetch one page of
the chat's messages ordered by `createdAt` descending with
`skip = (page-1)*limit`, `take = limit`; then `updateMany` flips `isRead`
on every unread message of the chat addressed to `userId`; the page that
was fetched **before** that update is returned reversed. -/
def getChatMessages (db : DB) (chatId : Nat) (userId : String)
    (page limit : Nat) : Except String HistoryResult × DB :=
  if !(isActiveParticipant db chatId userId) then
    (.error "User not authorized for this chat", db)
  else
    let skip := (page - 1) * limit
    let sorted := sortByKeyDesc (fun m => m.createdAt)
      (db.messages.filter (fun m => m.chatId == chatId))
    let pageMsgs := (sorted.drop skip).take limit
    let db' := { db with messages := db.messages.map (fun m =>
        if m.chatId == chatId && m.receiverId == userId && !m.isRead then
          { m with isRead := true }
        else m) }
    (.ok { messages := pageMsgs.reverse,
           hasMore := pageMsgs.length == limit,
           page := page }, db')

/-! ## `sendMessage` (ChatService)

The two writes (`chatMessage.create` and `chat.update` of `updatedAt`)
are wrapped in `prisma.$transaction`, so a failure of either write rolls
both back.  The Booleans `createOk` and `updateOk` are the fate of the two
individual writes; the transaction semantics is that any failure returns
the original database. -/

/-- `ChatService.sendMessage(chatId, senderId, receiverId, content, image)`
(lines 247–312 of chat.service.ts). -/
def sendMessage (db : DB) (chatId : Nat) (senderId receiverId content : String)
    (image : Option String) (newMsgId now : Nat) (createOk updateOk : Bool) :
    Except String Nat × DB :=
  if !(isActiveParticipant db chatId senderId) then
    (.error "Sender not authorized for this chat", db)
  else if !(isActiveParticipant db chatId receiverId) then
    (.error "Receiver not found in this chat", db)
  else if !createOk then
    (.error "transaction failed", db)
  else
    let db1 : DB := { db with messages := db.messages ++
      [{ id := newMsgId, chatId := chatId, senderId := senderId,
         receiverId := receiverId, content := content, image := image,
         isRead := false, createdAt := now }] }
    if !updateOk then
      (.error "transaction failed", db)
    else
      (.ok newMsgId,
       { db1 with chats := db1.chats.map (fun c =>
           if c.id == chatId then { c with updatedAt := now } else c) })

/-! ## `markMessageAsRead` (ChatService) -/

/-- `ChatService.markMessageAsRead(messageId, userId)`
(lines 314–331 of chat.service.ts). -/
def markMessageAsRead (db : DB) (messageId : Nat) (userId : String) :
    Except String Nat × DB :=
  match db.messages.find? (fun m => m.id == messageId) with
  | none => (.error "Message not found", db)
  | some m =>
    if m.receiverId != userId then
      (.error "Not authorized to mark this message as read", db)
    else
      (.ok messageId,
       { db with messages := db.messages.map (fun x =>
           if x.id == messageId then { x with isRead := true } else x) })

/-! ## `getChatList` (ChatService) -/

/-- One entry of the chat list (the fields the claims are about). -/
structure ChatListEntry where
  chatId : Nat
  lastMessageId : Option Nat
  unreadCount : Nat
  updatedAt : Nat
deriving Repr, DecidableEq

/-- `ChatService.getChatList(userId)` (lines 8–89 of chat.service.ts): one
entry per chat in which `userId` is an active participant, ordered by the
chat's `updatedAt` descending, carrying the latest message and
`unreadCount = ` the number of messages of the chat with
`receiverId = userId` and `isRead = false`. -/
def getChatList (db : DB) (userId : String) : List ChatListEntry :=
  let mine := db.chatParticipants.filter (fun p =>
    p.userId == userId && p.isActive)
  let entries := mine.filterMap (fun p =>
    (db.chats.find? (fun c => c.id == p.chatId)).map (fun c => show ChatListEntry from
      { chatId := c.id,
        lastMessageId := (sortByKeyDesc (fun m => m.createdAt)
          (db.messages.filter (fun m => m.chatId == c.id))).head?.map (fun m => m.id),
        unreadCount := (db.messages.filter (fun m =>
          m.chatId == c.id && m.receiverId == userId && !m.isRead)).length,
        updatedAt := c.updatedAt }))
  sortByKeyDesc (fun e => e.updatedAt) entries

/-! ## `ChatGateway` (chat.gateway.ts)

`connectedUsers` is a JS `Map<string, string>` from userId to socketId,
modelled as an association list with `Map.set` / `Map.get` / `Map.delete`
semantics.  Socket.io room membership is a set of (room name, socketId)
pairs.  Everything a handler `emit`s is collected in an output list of
`(Target, WireEvent)` pairs. -/

/-- `Map.set k v`: replaces the value of an existing key, else appends. -/
def mapSet (m : List (String × String)) (k v : String) :
    List (String × String) :=
  if m.any (fun kv => kv.fst == k) then
    m.map (fun kv => if kv.fst == k then (k, v) else kv)
  else m ++ [(k, v)]

/-- `Map.get k`. -/
def mapGet (m : List (String × String)) (k : String) : Option String :=
  (m.find? (fun kv => kv.fst == k)).map (fun kv => kv.snd)

/-- `Map.delete k`. -/
def mapDelete (m : List (String × String)) (k : String) :
    List (String × String) :=
  m.filter (fun kv => kv.fst != k)

/-- Destination of an emitted event. -/
inductive Target where
  | socket (socketId : String)
  | room (name : String)
  | broadcastFrom (socketId : String)
deriving Repr, DecidableEq

/-- The wire events the gateway emits (payload fields the claims need). -/
inductive WireEvent where
  | errorEvt (msg : String)
  | joinedChat (chatId : Nat)
  | leftChat (chatId : Nat)
  | newMessage (chatId msgId : Nat)
  | messageNotification (chatId : Nat) (senderId senderName content : String)
  | messageRead (messageId : Nat)
  | userOnline (userId : String)
  | userOffline (userId : String)
deriving Repr, DecidableEq

/-- Gateway state: the database plus the in-memory `connectedUsers` map and
the socket.io room memberships. -/
structure GatewayState where
  db : DB
  connectedUsers : List (String × String)
  rooms : List (String × String)
deriving Repr, DecidableEq

/-- `socket.join(name)`: set-style add of a room membership. -/
def joinRoom (st : GatewayState) (name socketId : String) : GatewayState :=
  if st.rooms.any (fun r => r.fst == name && r.snd == socketId) then st
  else { st with rooms := st.rooms ++ [(name, socketId)] }

/-- Whether a socket is a member of a room. -/
def inRoom (st : GatewayState) (name socketId : String) : Bool :=
  st.rooms.any (fun r => r.fst == name && r.snd == socketId)

/-- `ChatGateway.isUserOnline(userId)`: `connectedUsers.has(userId)`. -/
def isUserOnline (st : GatewayState) (userId : String) : Bool :=
  (mapGet st.connectedUsers userId).isSome

/-- `ChatGateway.handleConnection` (lines 35–71 of chat.gateway.ts): with no
token or no `auth.userId` the socket is disconnected and nothing is
registered; otherwise `client.userId` is set (returned here as the second
component), the user is registered in `connectedUsers` (last writer wins),
joined to their personal room, and `userOnline` is broadcast to the
others. -/
def handleConnection (st : GatewayState) (socketId : String)
    (token authUserId : Option String) :
    GatewayState × Option String × List (Target × WireEvent) :=
  match token with
  | none => (st, none, [])
  | some _ =>
    match authUserId with
    | none => (st, none, [])
    | some uid =>
      let st1 := { st with connectedUsers := mapSet st.connectedUsers uid socketId }
      let st2 := joinRoom st1 ("user_" ++ uid) socketId
      (st2, some uid, [(.broadcastFrom socketId, .userOnline uid)])

/-- `ChatGateway.handleDisconnect` (lines 73–81 of chat.gateway.ts): when
the disconnecting socket carries a `userId`, that user's entry is deleted
from `connectedUsers` and `userOffline` is broadcast. -/
def handleDisconnect (st : GatewayState) (clientUserId : Option String)
    (socketId : String) : GatewayState × List (Target × WireEvent) :=
  match clientUserId with
  | none => (st, [])
  | some uid =>
    ({ st with connectedUsers := mapDelete st.connectedUsers uid },
     [(.broadcastFrom socketId, .userOffline uid)])

/-- `ChatGateway.handleJoinChat` (lines 83–108 of chat.gateway.ts): an
unauthenticated socket gets an `error`; otherwise the socket joins room
`chat_<chatId>` — the source's participant check is a TODO comment — and
`joinedChat` is acked. -/
def handleJoinChat (st : GatewayState) (socketId : String)
    (clientUserId : Option String) (chatId : Nat) :
    GatewayState × List (Target × WireEvent) :=
  match clientUserId with
  | none => (st, [(.socket socketId, .errorEvt "Not authenticated")])
  | some _ =>
    (joinRoom st ("chat_" ++ toString chatId) socketId,
     [(.socket socketId, .joinedChat chatId)])

/-- `content.length > 50 ? content.substring(0, 50) + '...' : content`. -/
def truncateContent (content : String) : String :=
  if content.length > 50 then (content.take 50) ++ "..." else content

/-- `ChatGateway.handleSendMessage` (lines 130–188 of chat.gateway.ts): an
unauthenticated socket gets an `error`; otherwise `ChatService.sendMessage`
runs, and on its failure the catch block emits a single `error` to the
caller; on success `newMessage` goes to room `chat_<chatId>` and, when
`connectedUsers` has the receiver, `messageNotification` goes to the
receiver's personal room. -/
def handleSendMessage (st : GatewayState) (socketId : String)
    (clientUserId : Option String) (chatId : Nat)
    (receiverId content : String) (image : Option String)
    (newMsgId now : Nat) (createOk updateOk : Bool) :
    GatewayState × List (Target × WireEvent) :=
  match clientUserId with
  | none => (st, [(.socket socketId, .errorEvt "Not authenticated")])
  | some senderId =>
    match sendMessage st.db chatId senderId receiverId content image
        newMsgId now createOk updateOk with
    | (.error _, db') =>
      ({ st with db := db' },
       [(.socket socketId, .errorEvt "Failed to send message")])
    | (.ok mid, db') =>
      let senderName :=
        ((db'.users.find? (fun u => u.id == senderId)).map (fun u => u.name)).getD ""
      let notif :=
        match mapGet st.connectedUsers receiverId with
        | some _ =>
          [(Target.room ("user_" ++ receiverId),
            WireEvent.messageNotification chatId senderId senderName
              (truncateContent content))]
        | none => []
      ({ st with db := db' },
       (Target.room ("chat_" ++ toString chatId), WireEvent.newMessage chatId mid)
         :: notif)

/-- `ChatGateway.handleMarkAsRead` (lines 190–211 of chat.gateway.ts). -/
def handleMarkAsRead (st : GatewayState) (socketId : String)
    (clientUserId : Option String) (messageId : Nat) :
    GatewayState × List (Target × WireEvent) :=
  match clientUserId with
  | none => (st, [(.socket socketId, .errorEvt "Not authenticated")])
  | some uid =>
    match markMessageAsRead st.db messageId uid with
    | (.error _, db') =>
      ({ st with db := db' },
       [(.socket socketId, .errorEvt "Failed to mark message as read")])
    | (.ok _, db') =>
      ({ st with db := db' },
       [(.socket socketId, .messageRead messageId)])

/-! ## Operation sequences over the store (for the monotonicity invariant) -/

/-- One invocation of a `ChatService` operation that can write the store. -/
inductive ChatOp where
  | send (chatId : Nat) (senderId receiverId content : String)
      (image : Option String) (newMsgId now : Nat) (createOk updateOk : Bool)
  | history (chatId : Nat) (userId : String) (page limit : Nat)
  | markRead (messageId : Nat) (userId : String)
deriving Repr, DecidableEq

/-- The database after one operation (its result value discarded). -/
def applyOp (db : DB) : ChatOp → DB
  | .send c s r ct i m n k1 k2 => (sendMessage db c s r ct i m n k1 k2).2
  | .history c u p l => (getChatMessages db c u p l).2
  | .markRead m u => (markMessageAsRead db m u).2

/-- The database after a sequence of operations. -/
def applyOps (db : DB) : List ChatOp → DB
  | [] => db
  | op :: ops => applyOps (applyOp db op) ops

/-- Whether the store holds a message with this id whose read flag is set. -/
def isReadById (db : DB) (messageId : Nat) : Bool :=
  db.messages.any (fun m => m.id == messageId && m.isRead)

/-! ## Spec-side authorization predicate and concrete scenarios -/

/-- The specification's notion of a user authorized for an event, stated in
its words — "host, or an accepted event participant" — for comparison with
the check the code actually performs: the event's creator, or the holder of
an `event_participants` row in the accepted (`JOINED`) status. -/
def specEventAuthorized (db : DB) (eventId userId : String) : Bool :=
  (match findEvent db eventId with
   | some e => e.creatorId == userId
   | none => false) ||
  db.eventParticipants.any (fun ep =>
    ep.eventId == eventId && ep.userId == userId && ep.status == .joined)

deriving instance DecidableEq for Except

/-- The empty database. -/
def emptyDB : DB := ⟨[], [], [], [], [], []⟩

/-- Scenario: event `e1` created by `X`; `A` holds a `CANCELLED`
participant row; `B` has no relation to the event at all. -/
def dbC1 : DB := ⟨[⟨"e1", "X"⟩], [⟨"e1", "A", .cancelled⟩], [], [], [], []⟩

/-- The spec's example scenario: chat `1` on event `e1` with active
participants `A` and `B`, and one message from `B` to `A` not yet read. -/
def dbScenario : DB :=
  ⟨[⟨"e1", "X"⟩], [], [⟨"A", "Alice"⟩, ⟨"B", "Bob"⟩],
   [⟨1, "e1", 5⟩], [⟨1, "A", true, 0⟩, ⟨1, "B", true, 0⟩],
   [⟨1, 1, "B", "A", "hi", none, false, 10⟩]⟩

/-- Stale-disconnect scenario, step 1: user `U` connects on socket `S1`. -/
def staleConn1 : GatewayState :=
  (handleConnection ⟨emptyDB, [], []⟩ "S1" (some "tok") (some "U")).1

/-- Step 2: the same user connects again on socket `S2`. -/
def staleConn2 : GatewayState :=
  (handleConnection staleConn1 "S2" (some "tok") (some "U")).1

/-- Step 3: the old socket `S1` disconnects. -/
def staleAfter : GatewayState :=
  (handleDisconnect staleConn2 (some "U") "S1").1

/-- Scenario: chat `1` with active participants `A` and `B` and one read
message already in the store. -/
def dbOneRead : DB :=
  ⟨[], [], [], [⟨1, "e1", 5⟩], [⟨1, "A", true, 0⟩, ⟨1, "B", true, 0⟩],
   [⟨1, 1, "B", "A", "hi", none, true, 10⟩]⟩

/-- Scenario: chat `1` with two unread messages addressed to `A` and one
addressed to `B`, for exercising pagination and the frame effect. -/
def dbTwoUnread : DB :=
  ⟨[], [], [], [⟨1, "e1", 5⟩], [⟨1, "A", true, 0⟩, ⟨1, "B", true, 0⟩],
   [⟨1, 1, "B", "A", "hi", none, false, 10⟩,
    ⟨2, 1, "B", "A", "again", none, false, 11⟩,
    ⟨3, 1, "A", "B", "hey", none, false, 12⟩]⟩

/-- Concurrency scenario: event `e2` whose creator is `A`, no chats yet. -/
def dbC6 : DB := ⟨[⟨"e2", "A"⟩], [], [], [], [], []⟩

/-- First interleaved call's write phase (its read phase saw no room). -/
def dbC6Create1 : DB := (getOrCreateChatCreate dbC6 "A" "B" "e2" 1 100).2

/-- Second interleaved call's write phase (its read phase also ran against
`dbC6`, before the first call's write landed). -/
def dbC6Create2 : DB := (getOrCreateChatCreate dbC6Create1 "B" "A" "e2" 2 101).2

/-! # Theorems -/

/-- C1, counterexample.  In `dbC1` neither `A` (participant row in
`CANCELLED` status) nor `B` (no relation to the event) is authorized in the
spec's sense, yet `getOrCreateChat("e1", "A", "B")` succeeds and creates the
room together with a participant row for each of them: the validation is
not "both users are host or an accepted participant". -/
theorem getOrCreateChatBothAuthorizedCounterexample :
    specEventAuthorized dbC1 "e1" "A" = false ∧
    specEventAuthorized dbC1 "e1" "B" = false ∧
    (getOrCreateChat dbC1 "e1" "A" "B" 1 100).1 = .ok 1 ∧
    (getOrCreateChat dbC1 "e1" "A" "B" 1 100).2.chatParticipants =
      [⟨1, "A", true, 100⟩, ⟨1, "B", true, 100⟩] := by
  decide

/-- C1, amended: `getOrCreateChat(eventId, a, b)` checks that **at least
one** of the two users is the event's creator or holds an
`event_participants` row for the event (in any status); when the event
exists and neither does, the call fails with the authorization error and
the database — in particular the chat and chat-participant tables — is
returned unchanged. -/
theorem getOrCreateChatAuthGuard (db : DB) (eventId a b : String)
    (newChatId now : Nat) (e : EventRec)
    (hev : findEvent db eventId = some e)
    (ha : e.creatorId ≠ a) (hb : e.creatorId ≠ b)
    (hnp : ∀ ep ∈ db.eventParticipants,
      ep.eventId = eventId → ep.userId ≠ a ∧ ep.userId ≠ b) :
    getOrCreateChat db eventId a b newChatId now =
      (.error "User not authorized for this event", db) := by
  unfold getOrCreateChat getOrCreateChatFind
  rw [hev]
  have hhost : (e.creatorId == a || e.creatorId == b) = false := by
    simp [ha, hb]
  have hpart : db.eventParticipants.any (fun ep =>
      ep.eventId == eventId && (ep.userId == a || ep.userId == b)) = false := by
    rw [List.any_eq_false]
    intro ep hep
    rcases h : ep.eventId == eventId with _ | _
    · simp [h]
    · have := hnp ep hep (by simpa using h)
      simp [this.1, this.2]
  simp [hhost, hpart]

/-- C1, witness for the amended theorem at a concrete input: event `e1`
with creator `X`; users `P` and `Q` unrelated to it. -/
theorem getOrCreateChatAuthGuardWitness :
    getOrCreateChat dbC1 "e1" "P" "Q" 1 100 =
      (.error "User not authorized for this event", dbC1) :=
  getOrCreateChatAuthGuard dbC1 "e1" "P" "Q" 1 100 ⟨"e1", "X"⟩
    (by decide) (by decide) (by decide) (by decide)

/-- C3, evaluation at the failing input.  In `dbScenario` the chat `1`
belongs to `A` and `B`; user `M` is authenticated but no participant of it.
`handleJoinChat` nevertheless subscribes `M`'s socket `S9` to the room
group `chat_1` and acks `joinedChat` — the membership validation the claim
describes is absent from the handler (the source leaves it as a TODO). -/
theorem handleJoinChatSkipsMembershipCheck :
    isActiveParticipant dbScenario 1 "M" = false ∧
    inRoom (handleJoinChat ⟨dbScenario, [("M", "S9")], []⟩ "S9" (some "M") 1).1
      "chat_1" "S9" = true ∧
    (handleJoinChat ⟨dbScenario, [("M", "S9")], []⟩ "S9" (some "M") 1).2 =
      [(.socket "S9", .joinedChat 1)] := by
  decide

/-- C4, counterexample.  In the spec's example scenario (`dbScenario`),
`getChatMessages(1, "A", 1, 50)` returns the one message addressed to `A`
with `isRead = false`: the page is fetched before the `updateMany` that
flips the flag, so the returned copy carries the pre-call value, not
`isRead = true` as claimed. -/
theorem historyReadFlagCounterexample :
    (getChatMessages dbScenario 1 "A" 1 50).1 =
      .ok { messages := [⟨1, 1, "B", "A", "hi", none, false, 10⟩],
            hasMore := false, page := 1 } := by
  decide

/-- C4, amended.  In the example scenario, `getChatMessages(1, "A", 1, 50)`
marks every message addressed to `A` as read in the store, so `A`'s unread
count for the chat reported by `getChatList` drops from 1 to 0 — but the
returned page carries the pre-call read flags, so the message is returned
with `isRead = false`. -/
theorem historyScenarioAmended :
    (getChatList dbScenario "A").map (fun en => en.unreadCount) = [1] ∧
    (getChatMessages dbScenario 1 "A" 1 50).1 =
      .ok { messages := [⟨1, 1, "B", "A", "hi", none, false, 10⟩],
            hasMore := false, page := 1 } ∧
    ((getChatMessages dbScenario 1 "A" 1 50).2.messages.all
      (fun m => m.receiverId == "A" → m.isRead)) = true ∧
    (getChatList (getChatMessages dbScenario 1 "A" 1 50).2 "A").map
      (fun en => en.unreadCount) = [0] := by
  decide

/-- C5, counterexample.  User `U` connects with socket `S1`, then with
socket `S2` (`connectedUsers` maps `U` to `S2`); when the stale socket `S1`
then disconnects, `handleDisconnect` deletes `U`'s entry without comparing
socket ids, so the registration for `S2` is lost and `isUserOnline(U)` is
false — not true as claimed. -/
theorem unregisterStaleDisconnectCounterexample :
    staleConn2.connectedUsers = [("U", "S2")] ∧
    staleAfter.connectedUsers = [] ∧
    isUserOnline staleAfter "U" = false := by
  decide

/-- C5, amended.  `handleDisconnect` removes the disconnecting user's entry
from `connectedUsers` unconditionally whenever the socket carries a
`userId`, regardless of whether that socket is the currently registered
one; afterwards `isUserOnline` for that user is false.  A stale disconnect
therefore evicts a newer session. -/
theorem handleDisconnectUnconditionalRemoval (st : GatewayState)
    (uid socketId : String) :
    isUserOnline (handleDisconnect st (some uid) socketId).1 uid = false := by
  simp only [handleDisconnect, isUserOnline, mapGet, mapDelete]
  have hfind : List.find? (fun kv => kv.1 == uid)
      (List.filter (fun kv => kv.1 != uid) st.connectedUsers) = none := by
    rw [List.find?_eq_none]
    intro kv hkv
    have h := (List.mem_filter.mp hkv).2
    simp only [bne_iff_ne, ne_eq] at h
    simp [h]
  rw [hfind]
  rfl

/-- C2.  `handleSendMessage` on behalf of an authenticated sender: when the
sender or the receiver is not an active participant of the chat, the
gateway state — in particular the message store — is unchanged and the only
emitted event is an `error` on the calling socket: no `newMessage` room
broadcast, no `messageNotification`. -/
theorem sendMessageRejectsNonParticipant (st : GatewayState)
    (socketId senderId : String) (chatId : Nat)
    (receiverId content : String) (image : Option String)
    (newMsgId now : Nat) (createOk updateOk : Bool)
    (h : isActiveParticipant st.db chatId senderId = false ∨
         isActiveParticipant st.db chatId receiverId = false) :
    handleSendMessage st socketId (some senderId) chatId receiverId content
        image newMsgId now createOk updateOk =
      (st, [(.socket socketId, .errorEvt "Failed to send message")]) := by
  rcases h with h | h
  · simp [handleSendMessage, sendMessage, h]
  · cases hs : isActiveParticipant st.db chatId senderId
    · simp [handleSendMessage, sendMessage, hs]
    · simp [handleSendMessage, sendMessage, hs, h]

/-- C2, witness: empty store, so sender `A` is no active participant of
chat `1`; the call leaves the state unchanged and emits only the error. -/
theorem sendMessageRejectsNonParticipantWitness :
    (isActiveParticipant emptyDB 1 "A" = false ∨
     isActiveParticipant emptyDB 1 "B" = false) ∧
    handleSendMessage ⟨emptyDB, [], []⟩ "S1" (some "A") 1 "B" "hi" none 7 42
        true true =
      (⟨emptyDB, [], []⟩, [(.socket "S1", .errorEvt "Failed to send message")]) :=
  ⟨Or.inl (by decide),
   sendMessageRejectsNonParticipant ⟨emptyDB, [], []⟩ "S1" "A" 1 "B" "hi" none
     7 42 true true (Or.inl (by decide))⟩

/-- C7.  `sendMessage` is atomic in its two durable effects: on success the
resulting database is exactly the original with the new message appended
**and** the chat's `updatedAt` stamped (all other tables untouched); on any
failure — including failure of either write inside the transaction — the
database is returned unchanged. -/
theorem sendMessageAtomic (db : DB) (chatId : Nat)
    (senderId receiverId content : String) (image : Option String)
    (newMsgId now : Nat) (createOk updateOk : Bool) :
    (∀ mid, (sendMessage db chatId senderId receiverId content image newMsgId
        now createOk updateOk).1 = .ok mid →
      (sendMessage db chatId senderId receiverId content image newMsgId now
        createOk updateOk).2 =
        { db with
            messages := db.messages ++
              [⟨newMsgId, chatId, senderId, receiverId, content, image, false, now⟩],
            chats := db.chats.map (fun c =>
              if c.id == chatId then { c with updatedAt := now } else c) }) ∧
    (∀ e, (sendMessage db chatId senderId receiverId content image newMsgId
        now createOk updateOk).1 = .error e →
      (sendMessage db chatId senderId receiverId content image newMsgId now
        createOk updateOk).2 = db) := by
  cases hs : isActiveParticipant db chatId senderId <;>
    cases hr : isActiveParticipant db chatId receiverId <;>
      cases createOk <;> cases updateOk <;>
        simp [sendMessage, hs, hr]

/-- C7, witness: in the example scenario a send from `A` to `B` in chat `1`
with both writes succeeding yields exactly the appended message plus the
stamped chat row, and with the second write failing yields the unchanged
database. -/
theorem sendMessageAtomicWitness :
    ((sendMessage dbScenario 1 "A" "B" "yo" none 2 20 true true).2 =
      { dbScenario with
          messages := dbScenario.messages ++ [⟨2, 1, "A", "B", "yo", none, false, 20⟩],
          chats := dbScenario.chats.map (fun c =>
            if c.id == 1 then { c with updatedAt := 20 } else c) }) ∧
    ((sendMessage dbScenario 1 "A" "B" "yo" none 2 20 true false).2 = dbScenario) :=
  ⟨(sendMessageAtomic dbScenario 1 "A" "B" "yo" none 2 20 true true).1 2 (by decide),
   (sendMessageAtomic dbScenario 1 "A" "B" "yo" none 2 20 true false).2
     "transaction failed" (by decide)⟩

/-- C8.  `markMessageAsRead`: with no message of that id the call fails and
the database is unchanged; with a caller other than the message's receiver
it fails with the authorization error and the database is unchanged; with
the receiver as caller it succeeds and afterwards every stored message of
that id has its read flag true (so a repeated call finds it true and keeps
it true); messages of any other id are never touched. -/
theorem markMessageAsReadSpec (db : DB) (messageId : Nat) (userId : String) :
    (db.messages.find? (fun m => m.id == messageId) = none →
      markMessageAsRead db messageId userId = (.error "Message not found", db)) ∧
    (∀ m, db.messages.find? (fun m => m.id == messageId) = some m →
      m.receiverId ≠ userId →
      markMessageAsRead db messageId userId =
        (.error "Not authorized to mark this message as read", db)) ∧
    (∀ m, db.messages.find? (fun m => m.id == messageId) = some m →
      m.receiverId = userId →
      (markMessageAsRead db messageId userId).1 = .ok messageId ∧
      ∀ x ∈ (markMessageAsRead db messageId userId).2.messages,
        x.id = messageId → x.isRead = true) ∧
    (∀ x ∈ db.messages, x.id ≠ messageId →
      x ∈ (markMessageAsRead db messageId userId).2.messages) := by
  refine ⟨fun h => by simp [markMessageAsRead, h], ?_, ?_, ?_⟩
  · intro m hm hne
    simp [markMessageAsRead, hm, hne]
  · intro m hm heq
    have hre : markMessageAsRead db messageId userId =
        (.ok messageId, { db with messages := db.messages.map (fun x =>
            if x.id == messageId then { x with isRead := true } else x) }) := by
      simp [markMessageAsRead, hm, heq]
    refine ⟨by rw [hre], ?_⟩
    intro x hx hid
    rw [hre] at hx
    rcases List.mem_map.mp hx with ⟨y, hy, rfl⟩
    by_cases hyid : y.id = messageId
    · simp [hyid]
    · exfalso
      rw [if_neg (by simpa using hyid)] at hid
      exact hyid hid
  · intro x hx hne
    unfold markMessageAsRead
    cases hf : db.messages.find? (fun m => m.id == messageId) with
    | none => simpa using hx
    | some m =>
      by_cases hr : m.receiverId = userId
      · simp only [hr, bne_self_eq_false, Bool.false_eq_true, if_false]
        exact List.mem_map.mpr ⟨x, hx, by simp [hne]⟩
      · simp [hr, hx]

/-- C8, witness: in the example scenario, message `1` is addressed to `A`;
a call by `B` fails and leaves the store unchanged, a call by `A` succeeds
and leaves the message read. -/
theorem markMessageAsReadSpecWitness :
    (markMessageAsRead dbScenario 1 "B" =
      (.error "Not authorized to mark this message as read", dbScenario)) ∧
    (markMessageAsRead dbScenario 1 "A").1 = .ok 1 ∧
    (∀ x ∈ (markMessageAsRead dbScenario 1 "A").2.messages,
      x.id = 1 → x.isRead = true) :=
  ⟨(markMessageAsReadSpec dbScenario 1 "B").2.1 ⟨1, 1, "B", "A", "hi", none, false, 10⟩
      (by decide) (by decide),
   ((markMessageAsReadSpec dbScenario 1 "A").2.2.1 ⟨1, 1, "B", "A", "hi", none, false, 10⟩
      (by decide) (by decide)).1,
   ((markMessageAsReadSpec dbScenario 1 "A").2.2.1 ⟨1, 1, "B", "A", "hi", none, false, 10⟩
      (by decide) (by decide)).2⟩

/-- Helper: mapping a message transformation that preserves ids and never
clears a set read flag preserves "some message of this id is read". -/
theorem any_read_map (l : List ChatMessage) (f : ChatMessage → ChatMessage)
    (mid : Nat)
    (hf : ∀ m, (f m).id = m.id ∧ (m.isRead = true → (f m).isRead = true))
    (h : l.any (fun m => m.id == mid && m.isRead) = true) :
    (l.map f).any (fun m => m.id == mid && m.isRead) = true := by
  rcases List.any_eq_true.mp h with ⟨m, hm, hp⟩
  refine List.any_eq_true.mpr ⟨f m, List.mem_map_of_mem f hm, ?_⟩
  rw [Bool.and_eq_true, beq_iff_eq] at hp
  rw [Bool.and_eq_true, beq_iff_eq, (hf m).1]
  exact ⟨hp.1, (hf m).2 hp.2⟩

/-- Helper: every single chat-service operation preserves a set read
flag. -/
theorem isReadById_applyOp (db : DB) (op : ChatOp) (mid : Nat)
    (h : isReadById db mid = true) : isReadById (applyOp db op) mid = true := by
  cases op with
  | send c s r ct i m n k1 k2 =>
    cases hs : isActiveParticipant db c s <;>
      cases hrc : isActiveParticipant db c r <;>
        cases k1 <;> cases k2 <;>
          simp_all [applyOp, sendMessage, isReadById, List.any_append]
  | history c u p l =>
    cases hu : isActiveParticipant db c u with
    | false => simpa [applyOp, getChatMessages, hu] using h
    | true =>
      simp only [applyOp, getChatMessages, hu, Bool.not_true, Bool.false_eq_true,
        if_false]
      exact any_read_map _ _ _
        (fun m => by by_cases hc : m.chatId == c && m.receiverId == u && !m.isRead <;>
          simp [hc]) h
  | markRead m u =>
    cases hf : db.messages.find? (fun x => x.id == m) with
    | none => simpa [applyOp, markMessageAsRead, hf] using h
    | some msg =>
      by_cases hr : msg.receiverId = u
      · simp only [applyOp, markMessageAsRead, hf, hr, bne_self_eq_false,
          Bool.false_eq_true, if_false]
        exact any_read_map _ _ _
          (fun x => by by_cases hc : x.id == m <;> simp [hc]) h
      · simpa [applyOp, markMessageAsRead, hf, hr] using h

/-- C9.  The read flag is monotonic: if the store holds a read message of a
given id, then after any sequence of `sendMessage`, `getChatMessages` and
`markMessageAsRead` operations it still holds a read message of that id —
no operation resets the flag to false. -/
theorem readFlagMonotonic (db : DB) (ops : List ChatOp) (messageId : Nat)
    (h : isReadById db messageId = true) :
    isReadById (applyOps db ops) messageId = true := by
  induction ops generalizing db with
  | nil => exact h
  | cons op rest ih => exact ih _ (isReadById_applyOp db op messageId h)

/-- C9, witness: a store holding message `1` already read; a mark-as-read
by the wrong user, a history fetch and a fresh send later it is still
read. -/
theorem readFlagMonotonicWitness :
    isReadById dbOneRead 1 = true ∧
    isReadById (applyOps dbOneRead
      [.markRead 1 "B", .history 1 "A" 1 50,
       .send 1 "A" "B" "yo" none 2 20 true true]) 1 = true :=
  ⟨by decide,
   readFlagMonotonic dbOneRead
     [.markRead 1 "B", .history 1 "A" 1 50,
      .send 1 "A" "B" "yo" none 2 20 true true] 1 (by decide)⟩

/-- C10.  When called by an active participant, the read-receipt side
effect of `getChatMessages` leaves no message of the chat addressed to the
caller unread — irrespective of `page` and `limit`, so also for messages
outside the returned page — while every message addressed to someone else
is kept unchanged in the store, whose size does not change. -/
theorem historyFrameEffect (db : DB) (chatId : Nat) (userId : String)
    (page limit : Nat)
    (h : isActiveParticipant db chatId userId = true) :
    (∀ m ∈ (getChatMessages db chatId userId page limit).2.messages,
       m.chatId = chatId → m.receiverId = userId → m.isRead = true) ∧
    (∀ m ∈ db.messages, m.receiverId ≠ userId →
       m ∈ (getChatMessages db chatId userId page limit).2.messages) ∧
    (getChatMessages db chatId userId page limit).2.messages.length =
      db.messages.length := by
  have hre : (getChatMessages db chatId userId page limit).2 =
      { db with messages := db.messages.map (fun m =>
          if m.chatId == chatId && m.receiverId == userId && !m.isRead then
            { m with isRead := true }
          else m) } := by
    simp [getChatMessages, h]
  rw [hre]
  refine ⟨?_, ?_, by simp⟩
  · intro m hm hmc hmr
    rcases List.mem_map.mp hm with ⟨y, hy, rfl⟩
    by_cases hc : (y.chatId == chatId && y.receiverId == userId && !y.isRead) = true
    · simp [hc]
    · rw [if_neg hc] at hmc hmr ⊢
      cases hread : y.isRead
      · exact absurd (by simp [hmc, hmr, hread]) hc
      · rfl
  · intro m hm hne
    refine List.mem_map.mpr ⟨m, hm, ?_⟩
    rw [if_neg (by simp [hne])]

/-- C10, witness: scenario with two unread messages to `A` in chat `1` and
`limit = 1`, so one of them is outside the returned page; after the call
both are read and `B`'s message flags are untouched. -/
theorem historyFrameEffectWitness :
    isActiveParticipant dbTwoUnread 1 "A" = true ∧
    ((∀ m ∈ (getChatMessages dbTwoUnread 1 "A" 1 1).2.messages,
       m.chatId = 1 → m.receiverId = "A" → m.isRead = true) ∧
     (∀ m ∈ dbTwoUnread.messages, m.receiverId ≠ "A" →
        m ∈ (getChatMessages dbTwoUnread 1 "A" 1 1).2.messages) ∧
     (getChatMessages dbTwoUnread 1 "A" 1 1).2.messages.length =
       dbTwoUnread.messages.length) :=
  ⟨by decide, historyFrameEffect dbTwoUnread 1 "A" 1 1 (by decide)⟩

/-- C6, counterexample to the concurrent part.  Each `await` in
`getOrCreateChat` is a separate database round trip, and nothing makes the
`findFirst`/`create` pair atomic: in the interleaving where both calls for
(event `e2`, pair `{A, B}`) run their read phase against `dbC6` (both see
no room) before either write phase lands, two distinct rooms for the same
event and the same unordered pair are created. -/
theorem getOrCreateChatConcurrentDuplicate :
    getOrCreateChatFind dbC6 "e2" "A" "B" = .notFound ∧
    getOrCreateChatFind dbC6 "e2" "B" "A" = .notFound ∧
    (dbC6Create2.chats.filter (fun c => c.eventId == "e2")).length = 2 ∧
    dbC6Create2.chatParticipants.all
      (fun p => p.userId == "A" || p.userId == "B") = true ∧
    (getOrCreateChatCreate dbC6 "A" "B" "e2" 1 100).1 ≠
      (getOrCreateChatCreate dbC6Create1 "B" "A" "e2" 2 101).1 := by
  decide

/-- Helper: the read phase of `getOrCreateChat` is symmetric in the two
user arguments (every test mentions them only through a disjunction). -/
theorem getOrCreateChatFindSwap (db : DB) (e a b : String) :
    getOrCreateChatFind db e b a = getOrCreateChatFind db e a b := by
  unfold getOrCreateChatFind
  cases hev : findEvent db e with
  | none => rfl
  | some ev =>
    have h1 : (fun (ep : EventParticipantRec) =>
        ep.eventId == e && (ep.userId == b || ep.userId == a)) =
        (fun ep => ep.eventId == e && (ep.userId == a || ep.userId == b)) := by
      funext ep
      rw [Bool.or_comm]
    have h2 : (fun (c : Chat) => c.eventId == e &&
        (chatParts db c.id).all (fun p => p.userId == b || p.userId == a)) =
        (fun c => c.eventId == e &&
          (chatParts db c.id).all (fun p => p.userId == a || p.userId == b)) := by
      funext c
      rw [show (fun (p : ChatParticipant) => p.userId == b || p.userId == a) =
          (fun p => p.userId == a || p.userId == b) from
        funext (fun p => Bool.or_comm _ _)]
    rw [h1, h2]
    dsimp only
    rw [Bool.or_comm (ev.creatorId == b) (ev.creatorId == a)]

/-- Helper: the write phase touches no participant row of any other chat. -/
theorem chatPartsAfterCreate (db : DB) (a b e : String) (n1 t1 cid : Nat)
    (hne : cid ≠ n1) :
    chatParts (getOrCreateChatCreate db a b e n1 t1).2 cid = chatParts db cid := by
  unfold chatParts getOrCreateChatCreate
  dsimp only
  rw [List.filter_append]
  have h2 : List.filter (fun p => p.chatId == cid)
      [⟨n1, a, true, t1⟩, ⟨n1, b, true, t1⟩] = ([] : List ChatParticipant) := by
    simp [Ne.symm hne]
  rw [h2, List.append_nil]

/-- Helper: when `n1` is fresh, the new chat's participant rows are exactly
the two created ones. -/
theorem chatPartsNewAfterCreate (db : DB) (a b e : String) (n1 t1 : Nat)
    (hfp : ∀ p ∈ db.chatParticipants, p.chatId ≠ n1) :
    chatParts (getOrCreateChatCreate db a b e n1 t1).2 n1 =
      [⟨n1, a, true, t1⟩, ⟨n1, b, true, t1⟩] := by
  unfold chatParts getOrCreateChatCreate
  dsimp only
  rw [List.filter_append]
  have h1 : List.filter (fun p => p.chatId == n1) db.chatParticipants =
      ([] : List ChatParticipant) := by
    rw [List.filter_eq_nil_iff]
    intro p hp
    simp [hfp p hp]
  rw [h1]
  simp

/-- Helper: once the event is resolved and the authorization condition is
false, the read phase is the `findFirst` plus the length-2 test. -/
theorem getOrCreateChatFindEq (db : DB) (e a b : String) (ev : EventRec)
    (hev : findEvent db e = some ev)
    (hcond : (!(ev.creatorId == a || ev.creatorId == b) &&
      !(db.eventParticipants.any (fun ep =>
        ep.eventId == e && (ep.userId == a || ep.userId == b)))) = false) :
    getOrCreateChatFind db e a b =
      match db.chats.find? (fun c => c.eventId == e &&
          (chatParts db c.id).all (fun p => p.userId == a || p.userId == b)) with
      | some c =>
        if (chatParts db c.id).length == 2 then .found c.id else .notFound
      | none => .notFound := by
  unfold getOrCreateChatFind
  rw [hev]
  dsimp only
  rw [hcond]
  simp

/-- Helper: after a successful create for a fresh id, the read phase finds
exactly the created room (assuming every pre-existing chat has its two
participant rows). -/
theorem getOrCreateChatFindAfterCreate (db : DB) (e a b : String)
    (n1 t1 : Nat)
    (hwf : ∀ c ∈ db.chats, (chatParts db c.id).length = 2)
    (hfc : ∀ c ∈ db.chats, c.id ≠ n1)
    (hfp : ∀ p ∈ db.chatParticipants, p.chatId ≠ n1)
    (hfind : getOrCreateChatFind db e a b = .notFound) :
    getOrCreateChatFind (getOrCreateChatCreate db a b e n1 t1).2 e a b =
      .found n1 := by
  cases hev : findEvent db e with
  | none =>
    rw [show getOrCreateChatFind db e a b = .failed "Event not found" from by
      unfold getOrCreateChatFind; rw [hev]] at hfind
    exact absurd hfind (by simp)
  | some ev =>
    have hcond : (!(ev.creatorId == a || ev.creatorId == b) &&
        !(db.eventParticipants.any (fun ep =>
          ep.eventId == e && (ep.userId == a || ep.userId == b)))) = false := by
      cases hc : (!(ev.creatorId == a || ev.creatorId == b) &&
          !(db.eventParticipants.any (fun ep =>
            ep.eventId == e && (ep.userId == a || ep.userId == b))))
      · rfl
      · exfalso
        unfold getOrCreateChatFind at hfind
        rw [hev] at hfind
        dsimp only at hfind
        rw [hc] at hfind
        simp at hfind
    rw [getOrCreateChatFindEq db e a b ev hev hcond] at hfind
    have hfOld : db.chats.find? (fun c => c.eventId == e &&
        (chatParts db c.id).all (fun p => p.userId == a || p.userId == b)) =
        none := by
      cases hf : db.chats.find? (fun c => c.eventId == e &&
          (chatParts db c.id).all (fun p => p.userId == a || p.userId == b)) with
      | none => rfl
      | some c =>
        exfalso
        rw [hf] at hfind
        dsimp only at hfind
        have hc2 : (chatParts db c.id).length = 2 :=
          hwf c (List.mem_of_find?_eq_some hf)
        rw [hc2] at hfind
        simp at hfind
    have hev' : findEvent (getOrCreateChatCreate db a b e n1 t1).2 e =
        some ev := hev
    have hcond' : (!(ev.creatorId == a || ev.creatorId == b) &&
        !((getOrCreateChatCreate db a b e n1 t1).2.eventParticipants.any
          (fun ep => ep.eventId == e &&
            (ep.userId == a || ep.userId == b)))) = false := hcond
    rw [getOrCreateChatFindEq _ e a b ev hev' hcond']
    have hsplit : (getOrCreateChatCreate db a b e n1 t1).2.chats =
        db.chats ++ [⟨n1, e, t1⟩] := rfl
    rw [hsplit, List.find?_append]
    have hleft : db.chats.find? (fun c => c.eventId == e &&
        (chatParts (getOrCreateChatCreate db a b e n1 t1).2 c.id).all
          (fun p => p.userId == a || p.userId == b)) = none := by
      rw [List.find?_eq_none]
      intro c hc
      rw [chatPartsAfterCreate db a b e n1 t1 c.id (hfc c hc)]
      exact List.find?_eq_none.mp hfOld c hc
    rw [hleft]
    have hnewParts : chatParts (getOrCreateChatCreate db a b e n1 t1).2 n1 =
        [⟨n1, a, true, t1⟩, ⟨n1, b, true, t1⟩] :=
      chatPartsNewAfterCreate db a b e n1 t1 hfp
    have hpred : ((⟨n1, e, t1⟩ : Chat).eventId == e &&
        (chatParts (getOrCreateChatCreate db a b e n1 t1).2
          (⟨n1, e, t1⟩ : Chat).id).all
          (fun p => p.userId == a || p.userId == b)) = true := by
      show (e == e && (chatParts (getOrCreateChatCreate db a b e n1 t1).2
        n1).all (fun p => p.userId == a || p.userId == b)) = true
      rw [hnewParts]
      simp
    rw [show ([⟨n1, e, t1⟩] : List Chat).find? (fun c => c.eventId == e &&
        (chatParts (getOrCreateChatCreate db a b e n1 t1).2 c.id).all
          (fun p => p.userId == a || p.userId == b)) =
        some ⟨n1, e, t1⟩ from by
      unfold List.find?
      rw [hpred]]
    dsimp only [Option.or]
    show (if (chatParts (getOrCreateChatCreate db a b e n1 t1).2 n1).length == 2
      then FindOutcome.found n1 else FindOutcome.notFound) = .found n1
    rw [hnewParts]
    rfl

/-- C6, amended.  For a fixed (event, user pair), **sequential** repeated
calls of `getOrCreateChat` are idempotent: once a call has succeeded, every
later call — in either argument order — returns the same room id and
leaves the database unchanged, provided each existing chat has exactly its
two participant rows and the id supplied for a potential create is fresh.
(The concurrent half of the original claim fails: the read and write
phases are not atomic, see the counterexample.) -/
theorem getOrCreateChatSequentialIdempotent (db : DB) (eventId a b : String)
    (n1 t1 n2 t2 r : Nat) (db' : DB)
    (hwf : ∀ c ∈ db.chats, (chatParts db c.id).length = 2)
    (hfc : ∀ c ∈ db.chats, c.id ≠ n1)
    (hfp : ∀ p ∈ db.chatParticipants, p.chatId ≠ n1)
    (hcall : getOrCreateChat db eventId a b n1 t1 = (.ok r, db')) :
    getOrCreateChat db' eventId a b n2 t2 = (.ok r, db') ∧
    getOrCreateChat db' eventId b a n2 t2 = (.ok r, db') := by
  unfold getOrCreateChat at hcall
  cases hfind : getOrCreateChatFind db eventId a b with
  | failed m =>
    rw [hfind] at hcall
    simp at hcall
  | found cid =>
    rw [hfind] at hcall
    dsimp only at hcall
    rw [Prod.mk.injEq] at hcall
    obtain ⟨h1, h2⟩ := hcall
    have hr : cid = r := by
      injection h1
    subst hr
    subst h2
    constructor
    · unfold getOrCreateChat
      rw [hfind]
    · unfold getOrCreateChat
      rw [getOrCreateChatFindSwap, hfind]
  | notFound =>
    rw [hfind] at hcall
    rw [show getOrCreateChatCreate db a b eventId n1 t1 =
        (n1, (getOrCreateChatCreate db a b eventId n1 t1).2) from rfl] at hcall
    dsimp only at hcall
    rw [Prod.mk.injEq] at hcall
    obtain ⟨h1, h2⟩ := hcall
    have hr : n1 = r := by
      injection h1
    subst hr
    subst h2
    have hfound := getOrCreateChatFindAfterCreate db eventId a b n1 t1
      hwf hfc hfp hfind
    constructor
    · unfold getOrCreateChat
      rw [hfound]
    · unfold getOrCreateChat
      rw [getOrCreateChatFindSwap, hfound]

/-- C6, witness: on `dbC6` (event `e2`, creator `A`, no chats) a first call
creates room `1`; repeated calls in both argument orders return room `1`
and leave the database as it was. -/
theorem getOrCreateChatSequentialIdempotentWitness :
    getOrCreateChat dbC6 "e2" "A" "B" 1 100 = (.ok 1, dbC6Create1) ∧
    getOrCreateChat dbC6Create1 "e2" "A" "B" 2 200 = (.ok 1, dbC6Create1) ∧
    getOrCreateChat dbC6Create1 "e2" "B" "A" 2 200 = (.ok 1, dbC6Create1) :=
  ⟨by decide,
   (getOrCreateChatSequentialIdempotent dbC6 "e2" "A" "B" 1 100 2 200 1
     dbC6Create1 (by decide) (by decide) (by decide) (by decide)).1,
   (getOrCreateChatSequentialIdempotent dbC6 "e2" "A" "B" 1 100 2 200 1
     dbC6Create1 (by decide) (by decide) (by decide) (by decide)).2⟩

end BinaryDot
